import Mathlib

/-!
Shallow embedding of `src/context.rs` of the arrow-client repository: the
synchronized application context (connection state, scanning flag, scan
report, configuration collaborator, and the connection-state persistence
side effect), together with theorems checking the specification claims.

Stateful Rust code is embedded by explicit state passing:
* the mutable fields of `ApplicationContextData` form a Lean structure,
  and a method on `&mut self` becomes a function returning the updated
  structure;
* the `Arc<Mutex<_>>` shared cell is embedded as an address into a `Heap`
  mapping addresses to `ApplicationContextData` values, so that cloned
  handles holding the same address share the same underlying data;
* the filesystem and the logger sink are embedded as a `World` record
  (per-path writability, per-path file contents, and a log of emitted
  messages) threaded through the effectful operations.

Collaborators whose code is not under `src/` (the configuration store,
the scan-report payload, the logging helper, and the connection-state
getter referenced by the specification) are modelled from the spec; each
such definition says so in its doc comment.
-/

/-- Logging severity of the logger collaborator (`utils::logger::Severity`).
Modelled from the spec: the code under scrutiny only uses `WARN`
("reported through the logger at warning severity"). -/
inductive Severity where
  | DEBUG
  | INFO
  | WARN
  | ERROR
  deriving Repr, DecidableEq

/-- Modelled from the spec: the logger handle (`BoxedLogger`) is
"shareable, clonable"; message delivery is recorded in the `World` log,
so the handle itself is just a shared tag. -/
structure BoxedLogger where
  id : Nat
  deriving Repr, DecidableEq

/-- Cloning a logger handle yields another handle to the same sink. -/
def BoxedLogger.clone (l : BoxedLogger) : BoxedLogger :=
  l

/-- Modelled from the spec: a scan report is "a summary of services
discovered during a local network scan", a plain value type
(`net::arrow::proto::ScanReport`); its payload is abstracted as a list of
discovered service identifiers. -/
structure ScanReport where
  services : List Nat
  deriving Repr, DecidableEq

/-- Fresh empty scan report (`ScanReport::new`). -/
def ScanReport.new : ScanReport :=
  { services := [] }

/-- Modelled from the spec: `Clone` on a plain value type produces an
independent deep copy, structurally equal to the original. -/
def ScanReport.clone (r : ScanReport) : ScanReport :=
  { services := r.services }

/-- Opaque stand-in for `native_tls::TlsConnector` values. -/
structure TlsConnector where
  id : Nat
  deriving Repr, DecidableEq

/-- Stand-in for `utils::RuntimeError` (a message-carrying error). -/
structure RuntimeError where
  msg : String
  deriving Repr, DecidableEq

/-- Stand-in for `std::io::Error` (a message-carrying error). -/
structure IoError where
  msg : String
  deriving Repr, DecidableEq

/-- Modelled from the spec: the configuration collaborator
(`config::ApplicationConfig`), which "owns identity/config values,
constructs TLS connectors on demand and knows the filesystem path for
persisted connection state".  The TLS-connector factory outcome is
carried as a field so that the context's delegation can be compared with
it. -/
structure ApplicationConfig where
  version : Nat
  uuid : Nat
  password : Nat
  mac_address : List Nat
  diagnostic_mode : Bool
  logger : BoxedLogger
  tls_connector : Except RuntimeError TlsConnector
  connection_state_file : String

/-- Configuration version accessor of the collaborator. -/
def ApplicationConfig.get_version (c : ApplicationConfig) : Nat :=
  c.version

/-- Diagnostic-mode accessor of the collaborator. -/
def ApplicationConfig.get_diagnostic_mode (c : ApplicationConfig) : Bool :=
  c.diagnostic_mode

/-- Logger accessor of the collaborator (hands out a clone). -/
def ApplicationConfig.get_logger (c : ApplicationConfig) : BoxedLogger :=
  c.logger.clone

/-- TLS-connector factory of the collaborator: "produces a ready-to-use
TLS client connector or a configuration error". -/
def ApplicationConfig.get_tls_connector (c : ApplicationConfig) :
    Except RuntimeError TlsConnector :=
  c.tls_connector

/-- Connection-state file path of the collaborator. -/
def ApplicationConfig.get_connection_state_file (c : ApplicationConfig) : String :=
  c.connection_state_file

/-- Ambient effects: the filesystem (per-path writability and contents)
and the log sink shared by all logger handles. -/
structure World where
  writable : String → Bool
  contents : String → Option String
  log : List (Severity × String)

/-- Arrow service connection state (`ConnectionState` in `context.rs`). -/
inductive ConnectionState where
  | Connected
  | Disconnected
  | Unauthorized
  deriving Repr, DecidableEq

/-- String representation of the state (`ConnectionState::as_str`). -/
def ConnectionState.as_str (s : ConnectionState) : String :=
  match s with
  | ConnectionState.Connected => "connected"
  | ConnectionState.Disconnected => "disconnected"
  | ConnectionState.Unauthorized => "unauthorized"

/-- Display of a `ConnectionState`: the `Display` impl writes exactly
`self.as_str()`. -/
def ConnectionState.display (s : ConnectionState) : String :=
  s.as_str

/-- Internal data of the application context
(`ApplicationContextData` in `context.rs`). -/
structure ApplicationContextData where
  logger : BoxedLogger
  config : ApplicationConfig
  scanning : Bool
  scan_report : ScanReport
  conn_state : ConnectionState

/-- Construction from a configuration handle
(`ApplicationContextData::new`). -/
def ApplicationContextData.new (config : ApplicationConfig) : ApplicationContextData :=
  { logger := config.get_logger
    config := config
    scanning := false
    scan_report := ScanReport.new
    conn_state := ConnectionState.Disconnected }

/-- Configuration-version accessor (`get_config_version`). -/
def ApplicationContextData.get_config_version (d : ApplicationContextData) : Nat :=
  d.config.get_version

/-- Diagnostic-mode accessor (`get_diagnostic_mode`). -/
def ApplicationContextData.get_diagnostic_mode (d : ApplicationContextData) : Bool :=
  d.config.get_diagnostic_mode

/-- Logger accessor (`get_logger`): clones the stored handle. -/
def ApplicationContextData.get_logger (d : ApplicationContextData) : BoxedLogger :=
  d.logger.clone

/-- TLS-connector accessor (`get_tls_connector`): delegates to the
configuration collaborator. -/
def ApplicationContextData.get_tls_connector (d : ApplicationContextData) :
    Except RuntimeError TlsConnector :=
  d.config.get_tls_connector

/-- Scanning-flag setter (`set_scanning`). -/
def ApplicationContextData.set_scanning (d : ApplicationContextData) (scanning : Bool) :
    ApplicationContextData :=
  { d with scanning := scanning }

/-- Scanning-flag getter (`is_scanning`). -/
def ApplicationContextData.is_scanning (d : ApplicationContextData) : Bool :=
  d.scanning

/-- Scan-report getter (`get_scan_report`): returns a clone of the
stored report. -/
def ApplicationContextData.get_scan_report (d : ApplicationContextData) : ScanReport :=
  d.scan_report.clone

/-- Scan-report update (`update_scan_report`): replaces the stored
report. -/
def ApplicationContextData.update_scan_report (d : ApplicationContextData)
    (report : ScanReport) : ApplicationContextData :=
  { d with scan_report := report }

/-- Persistence of the connection state (`save_connection_state`):
`File::create` truncates or creates the file at the configured path and
`writeln!` writes the display form of the state followed by a newline;
an unwritable path makes `File::create` fail with an I/O error and the
filesystem is left unchanged. -/
def ApplicationContextData.save_connection_state (d : ApplicationContextData)
    (w : World) : Except IoError Unit × World :=
  let path := d.config.get_connection_state_file
  if w.writable path then
    (Except.ok (),
      { w with contents := fun p =>
          if p = path then some (d.conn_state.display ++ "\n") else w.contents p })
  else
    (Except.error { msg := "cannot create file" }, w)

/-- Modelled from the spec: `utils::result_or_log` is repository code not
under `src/`; per the spec a failure result is "caught at the point of
occurrence, logged once at warning severity with a fixed diagnostic
message, then discarded", and a success result passes through silently. -/
def result_or_log (_logger : BoxedLogger) (severity : Severity) (msg : String)
    (res : Except IoError Unit) (w : World) : World :=
  match res with
  | Except.ok _ => w
  | Except.error _ => { w with log := w.log ++ [(severity, msg)] }

/-- Connection-state setter (`ApplicationContextData::set_connection_state`):
updates the in-memory field first, then attempts persistence and hands
the outcome to `result_or_log` at warning severity with the fixed
message. -/
def ApplicationContextData.set_connection_state (d : ApplicationContextData)
    (state : ConnectionState) (w : World) : ApplicationContextData × World :=
  let d1 := { d with conn_state := state }
  let rw := d1.save_connection_state w
  let w1 := result_or_log d1.logger Severity.WARN
    "unable to save current connection state" rw.1 rw.2
  (d1, w1)

/-- Modelled from the spec: a `get_connection_state` accessor is
referenced by the specification ("a subsequent `get connection state()`
returns `Unauthorized`") but is not under `src/`; following the spec it
reads the in-memory connection-state field. -/
def ApplicationContextData.get_connection_state (d : ApplicationContextData) :
    ConnectionState :=
  d.conn_state

/-- Heap of shared `Arc<Mutex<ApplicationContextData>>` cells: addresses
map to the data they guard; `next` is the next fresh address. -/
structure Heap where
  cells : Nat → ApplicationContextData
  next : Nat

/-- Writing one cell of the heap. -/
def Heap.write (hp : Heap) (a : Nat) (d : ApplicationContextData) : Heap :=
  { hp with cells := fun n => if n = a then d else hp.cells n }

/-- Application context handle (`ApplicationContext` in `context.rs`):
its only field is the `Arc` pointer to the shared cell, embedded as the
cell's address. -/
structure ApplicationContext where
  data : Nat
  deriving Repr, DecidableEq

/-- Construction (`ApplicationContext::new`): allocates a fresh shared
cell holding `ApplicationContextData::new config`. -/
def ApplicationContext.new (config : ApplicationConfig) (hp : Heap) :
    ApplicationContext × Heap :=
  ({ data := hp.next },
    { cells := fun n =>
        if n = hp.next then ApplicationContextData.new config else hp.cells n
      next := hp.next + 1 })

/-- `derive(Clone)` on `ApplicationContext`: cloning copies the `Arc`
pointer, so the clone references the same cell. -/
def ApplicationContext.clone (c : ApplicationContext) : ApplicationContext :=
  { data := c.data }

/-- Handle-level TLS-connector accessor: locks the cell and delegates. -/
def ApplicationContext.get_tls_connector (c : ApplicationContext) (hp : Heap) :
    Except RuntimeError TlsConnector :=
  (hp.cells c.data).get_tls_connector

/-- Handle-level scanning-flag setter: locks the cell and delegates. -/
def ApplicationContext.set_scanning (c : ApplicationContext) (b : Bool) (hp : Heap) :
    Heap :=
  hp.write c.data ((hp.cells c.data).set_scanning b)

/-- Handle-level scanning-flag getter: locks the cell and delegates. -/
def ApplicationContext.is_scanning (c : ApplicationContext) (hp : Heap) : Bool :=
  (hp.cells c.data).is_scanning

/-- Handle-level scan-report getter: locks the cell and delegates. -/
def ApplicationContext.get_scan_report (c : ApplicationContext) (hp : Heap) :
    ScanReport :=
  (hp.cells c.data).get_scan_report

/-- Handle-level scan-report update: locks the cell and delegates. -/
def ApplicationContext.update_scan_report (c : ApplicationContext) (r : ScanReport)
    (hp : Heap) : Heap :=
  hp.write c.data ((hp.cells c.data).update_scan_report r)

/-- Handle-level connection-state setter: locks the cell and delegates. -/
def ApplicationContext.set_connection_state (c : ApplicationContext)
    (s : ConnectionState) (hp : Heap) (w : World) : Heap × World :=
  let dw := (hp.cells c.data).set_connection_state s w
  (hp.write c.data dw.1, dw.2)

/-- Handle-level connection-state getter (spec-modelled, see
`ApplicationContextData.get_connection_state`). -/
def ApplicationContext.get_connection_state (c : ApplicationContext) (hp : Heap) :
    ConnectionState :=
  (hp.cells c.data).get_connection_state

/-- Reading the scan report and mutating the returned copy locally: the
read borrows the cell immutably and hands back an owned clone, so the
caller's mutation `m` acts on the owned value only and the heap is
returned untouched. -/
def ApplicationContext.get_and_mutate_scan_report_copy (c : ApplicationContext)
    (hp : Heap) (m : ScanReport → ScanReport) : ScanReport × Heap :=
  (m (c.get_scan_report hp), hp)

/-- Concrete configuration fixture used by witnesses. -/
def sampleConfig : ApplicationConfig :=
  { version := 0
    uuid := 1
    password := 2
    mac_address := [0, 0, 0, 0, 0, 0]
    diagnostic_mode := false
    logger := { id := 0 }
    tls_connector := Except.ok { id := 7 }
    connection_state_file := "/var/lib/arrow/state" }

/-- Empty heap fixture. -/
def emptyHeap : Heap :=
  { cells := fun _ => ApplicationContextData.new sampleConfig
    next := 0 }

/-- Context fixture: a freshly constructed handle. -/
def sampleCtx : ApplicationContext :=
  (ApplicationContext.new sampleConfig emptyHeap).1

/-- Heap fixture after constructing `sampleCtx`. -/
def sampleHeap : Heap :=
  (ApplicationContext.new sampleConfig emptyHeap).2

/-- World fixture in which every path is writable. -/
def writableWorld : World :=
  { writable := fun _ => true
    contents := fun _ => none
    log := [] }

/-- World fixture in which no path is writable. -/
def unwritableWorld : World :=
  { writable := fun _ => false
    contents := fun _ => none
    log := [] }

/-- C1: every call to set connection state writes the argument into the
in-memory connection-state field (the embedding returns a plain pair, so
the call returns normally with no error channel), and when the
persistence write fails the failure is logged at warning severity with
the fixed diagnostic message and discarded, while the in-memory value
set remains in place. -/
theorem set_connection_state_inmemory_and_warn_on_failure
    (c : ApplicationContext) (hp : Heap) (w : World) (s : ConnectionState) :
    (((c.set_connection_state s hp w).1).cells c.data).conn_state = s
    ∧ (w.writable ((hp.cells c.data).config.get_connection_state_file) = false →
        ((c.set_connection_state s hp w).2).log
          = w.log ++ [(Severity.WARN, "unable to save current connection state")]) := by
  constructor
  · simp [ApplicationContext.set_connection_state,
      ApplicationContextData.set_connection_state, Heap.write]
  · intro hfail
    simp [ApplicationContext.set_connection_state,
      ApplicationContextData.set_connection_state,
      ApplicationContextData.save_connection_state, result_or_log, hfail]

/-- Witness for C1 at a concrete unwritable world: the in-memory state is
set and the warning entry is appended to the (empty) log. -/
theorem set_connection_state_inmemory_and_warn_witness :
    (((sampleCtx.set_connection_state ConnectionState.Connected sampleHeap
        unwritableWorld).1).cells sampleCtx.data).conn_state = ConnectionState.Connected
    ∧ ((sampleCtx.set_connection_state ConnectionState.Connected sampleHeap
        unwritableWorld).2).log
        = unwritableWorld.log
          ++ [(Severity.WARN, "unable to save current connection state")] := by
  have h := set_connection_state_inmemory_and_warn_on_failure sampleCtx sampleHeap
    unwritableWorld ConnectionState.Connected
  exact ⟨h.1, h.2 rfl⟩

/-- C2: setting the connection state to Unauthorized makes a subsequent
get connection state on the same context return Unauthorized, for every
world — in particular one whose connection-state file path is
unwritable — and the textual form of that state is exactly
"unauthorized". -/
theorem set_unauthorized_then_get
    (c : ApplicationContext) (hp : Heap) (w : World) :
    c.get_connection_state
        (c.set_connection_state ConnectionState.Unauthorized hp w).1
      = ConnectionState.Unauthorized
    ∧ ConnectionState.Unauthorized.as_str = "unauthorized" := by
  constructor
  · simp [ApplicationContext.get_connection_state,
      ApplicationContext.set_connection_state,
      ApplicationContextData.set_connection_state,
      ApplicationContextData.get_connection_state, Heap.write]
  · rfl

/-- C3: whenever persistence succeeds, the file at the configured path
holds exactly the canonical lowercase string of the state followed by
one newline and nothing else. -/
theorem save_connection_state_file_format
    (d : ApplicationContextData) (w : World)
    (hok : (d.save_connection_state w).1 = Except.ok ()) :
    ((d.save_connection_state w).2).contents d.config.get_connection_state_file
      = some (d.conn_state.as_str ++ "\n") := by
  by_cases hw : w.writable d.config.get_connection_state_file = true
  · simp [ApplicationContextData.save_connection_state, hw, ConnectionState.display]
  · exfalso
    simp [ApplicationContextData.save_connection_state, hw] at hok

/-- Witness for C3 at a concrete writable world: persistence succeeds and
the file holds exactly "disconnected" followed by a newline. -/
theorem save_connection_state_file_format_witness :
    ((ApplicationContextData.new sampleConfig).save_connection_state writableWorld).1
      = Except.ok ()
    ∧ (((ApplicationContextData.new sampleConfig).save_connection_state
        writableWorld).2).contents
        (ApplicationContextData.new sampleConfig).config.get_connection_state_file
      = some (ConnectionState.Disconnected.as_str ++ "\n") := by
  refine ⟨rfl, ?_⟩
  exact save_connection_state_file_format (ApplicationContextData.new sampleConfig)
    writableWorld rfl

/-- C4: the string conversion is total over the three variants, yields
exactly the three canonical lowercase strings, and the display form used
for persistence coincides with it on every variant. -/
theorem as_str_canonical :
    ConnectionState.Connected.as_str = "connected"
    ∧ ConnectionState.Disconnected.as_str = "disconnected"
    ∧ ConnectionState.Unauthorized.as_str = "unauthorized"
    ∧ ∀ s : ConnectionState, s.display = s.as_str := by
  refine ⟨rfl, rfl, rfl, fun s => rfl⟩

/-- C5: a cloned handle holds the same cell address as the original, so a
mutation performed through the clone (scanning flag, scan report,
connection state) is observable through the original, and a mutation
through the original is observable through the clone. -/
theorem clone_shares_state
    (c : ApplicationContext) (hp : Heap) (w : World) (b : Bool)
    (r : ScanReport) (s : ConnectionState) :
    c.clone.data = c.data
    ∧ c.is_scanning (c.clone.set_scanning b hp) = b
    ∧ c.clone.is_scanning (c.set_scanning b hp) = b
    ∧ c.get_scan_report (c.clone.update_scan_report r hp) = r
    ∧ c.clone.get_scan_report (c.update_scan_report r hp) = r
    ∧ c.get_connection_state (c.clone.set_connection_state s hp w).1 = s
    ∧ c.clone.get_connection_state (c.set_connection_state s hp w).1 = s := by
  refine ⟨rfl, ?_, ?_, ?_, ?_, ?_, ?_⟩ <;>
    simp [ApplicationContext.clone, ApplicationContext.is_scanning,
      ApplicationContext.set_scanning, ApplicationContext.get_scan_report,
      ApplicationContext.update_scan_report, ApplicationContext.get_connection_state,
      ApplicationContext.set_connection_state, ApplicationContextData.is_scanning,
      ApplicationContextData.set_scanning, ApplicationContextData.get_scan_report,
      ApplicationContextData.update_scan_report, ApplicationContextData.get_connection_state,
      ApplicationContextData.set_connection_state, ScanReport.clone, Heap.write]

/-- C6: the TLS-connector accessor returns exactly the configuration
collaborator's factory outcome — the connector on success, the
configuration error on failure — unchanged; it takes no world, so it can
neither log nor otherwise discard the error. -/
theorem get_tls_connector_delegates
    (c : ApplicationContext) (hp : Heap) :
    c.get_tls_connector hp = ((hp.cells c.data).config).tls_connector := by
  rfl

/-- C7: set scanning followed by is scanning with no intervening writer
returns the boolean that was set, for both booleans and every context
state. -/
theorem set_scanning_roundtrip
    (c : ApplicationContext) (hp : Heap) (b : Bool) :
    c.is_scanning (c.set_scanning b hp) = b := by
  simp [ApplicationContext.is_scanning, ApplicationContext.set_scanning,
    ApplicationContextData.is_scanning, ApplicationContextData.set_scanning, Heap.write]

/-- C8: get scan report returns a value copy independent of the stored
report: the returned clone equals the stored report as a value, a read
followed by an arbitrary local mutation of the returned copy leaves the
heap — and hence the stored report — unchanged, and a subsequent read
returns a value equal to the one returned before. -/
theorem get_scan_report_value_copy
    (c : ApplicationContext) (hp : Heap) (m : ScanReport → ScanReport) :
    c.get_scan_report hp = (hp.cells c.data).scan_report
    ∧ (c.get_and_mutate_scan_report_copy hp m).2 = hp
    ∧ c.get_scan_report (c.get_and_mutate_scan_report_copy hp m).2
        = c.get_scan_report hp := by
  refine ⟨?_, rfl, rfl⟩
  simp [ApplicationContext.get_scan_report, ApplicationContextData.get_scan_report,
    ScanReport.clone]

/-- C9: a context constructed from any configuration handle starts with
connection state Disconnected, and the connection-state type is closed
over exactly the variants Connected, Disconnected and Unauthorized. -/
theorem new_context_starts_disconnected
    (config : ApplicationConfig) (hp : Heap) :
    (((ApplicationContext.new config hp).2).cells
        ((ApplicationContext.new config hp).1).data).conn_state
      = ConnectionState.Disconnected
    ∧ ∀ s : ConnectionState,
        s = ConnectionState.Connected ∨ s = ConnectionState.Disconnected
          ∨ s = ConnectionState.Unauthorized := by
  constructor
  · simp [ApplicationContext.new, ApplicationContextData.new]
  · intro s
    cases s
    · exact Or.inl rfl
    · exact Or.inr (Or.inl rfl)
    · exact Or.inr (Or.inr rfl)

/-- C10: set connection state attempts the persistence write even when
the argument equals the current in-memory state: with a writable path
the file is truncated and rewritten with the same value, and with an
unwritable path a warning is still logged, although the transition is a
no-op in memory. -/
theorem set_connection_state_always_persists
    (c : ApplicationContext) (hp : Heap) (w : World) (s : ConnectionState)
    (hsame : (hp.cells c.data).conn_state = s) :
    (w.writable ((hp.cells c.data).config.get_connection_state_file) = true →
      ((c.set_connection_state s hp w).2).contents
          ((hp.cells c.data).config.get_connection_state_file)
        = some (s.as_str ++ "\n"))
    ∧ (w.writable ((hp.cells c.data).config.get_connection_state_file) = false →
      ((c.set_connection_state s hp w).2).log
        = w.log ++ [(Severity.WARN, "unable to save current connection state")]) := by
  constructor
  · intro hw
    simp [ApplicationContext.set_connection_state,
      ApplicationContextData.set_connection_state,
      ApplicationContextData.save_connection_state, result_or_log,
      ConnectionState.display, hw]
  · intro hw
    simp [ApplicationContext.set_connection_state,
      ApplicationContextData.set_connection_state,
      ApplicationContextData.save_connection_state, result_or_log, hw]

/-- Witness for C10 at concrete inputs: the freshly constructed context
already holds Disconnected, and setting Disconnected again in a writable
world still rewrites the file with "disconnected" and a newline. -/
theorem set_connection_state_always_persists_witness :
    (sampleHeap.cells sampleCtx.data).conn_state = ConnectionState.Disconnected
    ∧ ((sampleCtx.set_connection_state ConnectionState.Disconnected sampleHeap
        writableWorld).2).contents
        ((sampleHeap.cells sampleCtx.data).config.get_connection_state_file)
      = some (ConnectionState.Disconnected.as_str ++ "\n") := by
  have h := set_connection_state_always_persists sampleCtx sampleHeap writableWorld
    ConnectionState.Disconnected rfl
  exact ⟨rfl, h.1 rfl⟩
